import Mathlib

/-!
Verification of the data-transform layer of `src/sea_turtles.py`.

The source is a dashboard whose reusable logic is four tabular
transforms over a dataset of sea-turtle observation records:

* the yearly-count aggregation of `turtle_population_plot` (lines 36-38):
  `value_counts(["date_year"])`, sort by year, keep `count > 1 and
  date_year >= 1990`;
* the yearly-mean aggregation of `scatter_plot` (line 119):
  `groupby("date_year")[["sst", "sss"]].mean()`;
* the category-count aggregation of `pie_plot` (lines 190-196):
  filter `date_year >= 2000`, `value_counts()` of the field, keep
  `count > 1`;
* `filter_turtle_data` (lines 277-279): keep rows with
  `date_year >= year`, cast the year to int, project three columns.

Records are embedded with nullable fields as `Option` values; a pandas
`NaN` in a column is `none`.  Comparisons against `none` are false, as
`NaN` comparisons are in pandas, and `value_counts` / `groupby` drop
`none` keys, as pandas drops `NaN` keys by default.  Sorting is
modelled by `List.insertionSort`; pandas' default sort is a different
(unstable) algorithm, but every property proved below depends only on
the sorted order of distinct keys or on membership, never on the order
of tied elements, which pandas leaves unspecified.
-/

/-- One observation record: the CSV columns of `seaturtles.csv` read by
the transforms.  Every field is nullable (`none` models pandas `NaN`).
Latitude, longitude, temperature and salinity are embedded as rationals. -/
structure Observation where
  date_year : Option Int
  waterBody : Option String
  country : Option String
  decimalLatitude : Option ℚ
  decimalLongitude : Option ℚ
  sst : Option ℚ
  sss : Option ℚ
deriving Repr, DecidableEq

/-- A dataset is an ordered collection of observation records. -/
abbrev Dataset := List Observation

/-- Boolean test for `r["date_year"] >= y` as pandas evaluates it: a null
year compares false. -/
def yearGE (y : Int) (r : Observation) : Bool :=
  match r.date_year with
  | some n => decide (y ≤ n)
  | none => false

/-- Boolean test for a present (non-null) year. -/
def hasYear (r : Observation) : Bool :=
  r.date_year.isSome

/-- Embedding of pandas `value_counts` on a column: one `(key, occurrences)`
pair per distinct non-null key, sorted by count descending.  The relative
order of tied counts is an artifact of the sorting algorithm and is not
relied upon by any theorem below, matching pandas, which leaves it
unspecified. -/
def valueCounts {α : Type} [DecidableEq α] (vs : List (Option α)) : List (α × Nat) :=
  let ks := vs.filterMap id
  List.insertionSort (fun a b => b.2 ≤ a.2) (ks.dedup.map (fun k => (k, ks.count k)))

/-- Lines 36-38 of `turtle_population_plot` (the spec's `yearly_counts`):
`df.value_counts(["date_year"])`, re-sorted ascending by year, then
`query("count > 1 and date_year >= 1990")`. -/
def yearly_counts (df : Dataset) : List (Int × Nat) :=
  (List.insertionSort (fun a b => a.1 ≤ b.1) (valueCounts (df.map (·.date_year)))).filter
    (fun p => decide (1 < p.2) && decide (1990 ≤ p.1))

/-- Mean of the non-null values of a numeric column, as pandas `mean`
computes it inside a group: null entries are skipped, and a group whose
values are all null has no mean (`none`, pandas `NaN`). -/
def colMean (vs : List (Option ℚ)) : Option ℚ :=
  let xs := vs.filterMap id
  if xs.length = 0 then none else some (xs.sum / (xs.length : ℚ))

/-- Line 119 of `scatter_plot` (the spec's `yearly_means` for the columns
`sst` and `sss`): `groupby("date_year")[["sst", "sss"]].mean()`.  Pandas
`groupby` drops null keys and sorts the remaining distinct keys
ascending; each group contributes one row `(year, mean sst, mean sss)`. -/
def yearly_means (df : Dataset) : List (Int × Option ℚ × Option ℚ) :=
  (List.insertionSort (fun a b => a ≤ b) (df.filterMap (·.date_year)).dedup).map
    (fun y =>
      let grp := df.filter (fun r => decide (r.date_year = some y))
      (y, colMean (grp.map (·.sst)), colMean (grp.map (·.sss))))

/-- Lines 190-196 of `pie_plot` (the spec's `category_counts` with
`min_year = 2000` as hard-coded in the source): `query("date_year >= 2000")`,
`value_counts()` of the requested field, then `query("count > 1")`.
The field is embedded as a column selector. -/
def category_counts (df : Dataset) (field : Observation → Option String) :
    List (String × Nat) :=
  (valueCounts ((df.filter (yearGE 2000)).map field)).filter (fun p => decide (1 < p.2))

/-- Result row of `filter_turtle_data`: the three projected columns, with
the year cast to a (non-null) integer. -/
structure GeoRow where
  date_year : Int
  decimalLatitude : Option ℚ
  decimalLongitude : Option ℚ
deriving Repr, DecidableEq

/-- Lines 277-279 of `filter_turtle_data` (the spec's `geo_filter`): keep
rows with `date_year >= year` (a null year compares false and is dropped),
cast `date_year` to int, and project the three columns
`date_year, decimalLatitude, decimalLongitude`.  The source applies no
null filter to the coordinate columns. -/
def filter_turtle_data (df : Dataset) (year : Int) : List GeoRow :=
  (df.filter (yearGE year)).map
    (fun r => ⟨r.date_year.getD 0, r.decimalLatitude, r.decimalLongitude⟩)

/-- Cell of a typed column after line 21's `fillna("NA")`: either an
original non-null value, or the string `"NA"` written into a null.  For
a non-string column the filled string is a type-foreign entry that later
comparisons on the column trip over. -/
def fillCell {α : Type} : Option α → α ⊕ String
  | some a => Sum.inl a
  | none => Sum.inr "NA"

/-- Row of the loaded frame after line 21's `fillna("NA")`, which fills
every column of the frame: a null in a string-typed category column
becomes the ordinary string value `"NA"` (indistinguishable from a
literal `"NA"` in the data), while a null in a numeric column becomes
the type-foreign string cell. -/
structure FilledObservation where
  date_year : Int ⊕ String
  waterBody : String
  country : String
  decimalLatitude : ℚ ⊕ String
  decimalLongitude : ℚ ⊕ String
  sst : ℚ ⊕ String
  sss : ℚ ⊕ String
deriving Repr, DecidableEq

/-- Line 21 of `load_data`: `turtles_data.fillna("NA")`, applied to every
column of the frame. -/
def fillNA (df : Dataset) : List FilledObservation :=
  df.map (fun r =>
    ⟨fillCell r.date_year, r.waterBody.getD "NA", r.country.getD "NA",
      fillCell r.decimalLatitude, fillCell r.decimalLongitude,
      fillCell r.sst, fillCell r.sss⟩)

/-- Year-threshold test on a filled row, for the rows on which the
comparison is defined: a year cell holding an integer compares normally;
the error case of a filled string cell is handled by the caller. -/
def filledYearGE (y : Int) (r : FilledObservation) : Bool :=
  match r.date_year with
  | Sum.inl n => decide (y ≤ n)
  | Sum.inr _ => false

/-- Lines 190-196 of `pie_plot` as the app invokes them, on the loaded
(fill-na'd) frame.  `query("date_year >= 2000")` evaluates the comparison
over the whole year column: if any cell of that column is the string
`"NA"` that `fillna` wrote into a null year, the str-vs-int comparison
raises `TypeError`, returned here as an error value.  Otherwise the
surviving rows' field values are counted and the categories with
`count > 1` kept, as in `category_counts`. -/
def pie_plot (df : List FilledObservation) (field : FilledObservation → String) :
    Except String (List (String × Nat)) :=
  if df.any (fun r => r.date_year.isRight) then Except.error "TypeError"
  else
    Except.ok ((valueCounts ((df.filter (filledYearGE 2000)).map
      (fun r => some (field r)))).filter (fun p => decide (1 < p.2)))

/-- Sample record: an observation with every field null, in particular a
missing year. -/
def obsNull : Observation :=
  ⟨none, none, none, none, none, none, none⟩

/-- Lines 36-91 of `turtle_population_plot`, reduced to its data
accesses: the yearly-count series together with the count looked up for
the second annotation by
`df_yearly.query("date_year == 2019")["count"].values[0]`.  When no
`(2019, count)` row survives the aggregation, that subscript raises
`IndexError`; the embedding returns it as an error value. -/
def turtle_population_plot (df : Dataset) :
    Except String (List (Int × Nat) × Nat) :=
  let df_yearly := yearly_counts df
  match (df_yearly.filter (fun p => decide (p.1 = 2019))).head? with
  | none => Except.error "IndexError"
  | some p => Except.ok (df_yearly, p.2)

/-- Sample record: an observation with the given year and every other
field null. -/
def obsY (y : Int) : Observation :=
  ⟨some y, none, none, none, none, none, none⟩

/-- Sample record: an observation with the given year and water body, and
every other field null. -/
def obsC (y : Int) (c : String) : Observation :=
  ⟨some y, some c, none, none, none, none, none⟩

instance : IsTotal (Int × Nat) (fun a b => a.1 ≤ b.1) :=
  ⟨fun a b => Int.le_total a.1 b.1⟩

instance : IsTrans (Int × Nat) (fun a b => a.1 ≤ b.1) :=
  ⟨fun _ _ _ h h2 => le_trans h h2⟩

/-- C4: on well-formed input the transforms never raise and an empty
dataset yields empty output, but the population-plot function that wraps
the yearly-count transform additionally dereferences the count of year
2019 and errors (pandas `IndexError`) when no such group exists — here
evaluated at the empty dataset, where all four transforms themselves
return the valid empty output. -/
theorem C4_empty_dataset_transforms_total_but_plot_errors :
    turtle_population_plot [] = Except.error "IndexError" ∧
    yearly_counts [] = [] ∧
    yearly_means [] = [] ∧
    category_counts [] (fun r => r.waterBody) = [] ∧
    filter_turtle_data [] 1990 = [] :=
  ⟨rfl, rfl, rfl, rfl, rfl⟩

/-- C5: every pair in the output of the yearly-count transform has
year at least 1990 and count strictly greater than one. -/
theorem C5_yearly_counts_bounds (df : Dataset) (p : Int × Nat)
    (hp : p ∈ yearly_counts df) : 1990 ≤ p.1 ∧ 1 < p.2 := by
  simp only [yearly_counts] at hp
  have h := (List.mem_filter.mp hp).2
  simp only [Bool.and_eq_true, decide_eq_true_eq] at h
  exact ⟨h.2, h.1⟩

/-- Witness for C5 at a concrete dataset of two 1990 observations. -/
theorem C5_yearly_counts_bounds_witness :
    (1990 : Int) ≤ (((1990 : Int), (2 : Nat))).1 ∧ 1 < (((1990 : Int), (2 : Nat))).2 :=
  C5_yearly_counts_bounds [obsY 1990, obsY 1990] ((1990 : Int), (2 : Nat)) (by decide)

/-- C6: the output of the yearly-count transform is strictly ascending in
the year component; in particular no year appears twice. -/
theorem C6_yearly_counts_strictly_ascending (df : Dataset) :
    (yearly_counts df).Pairwise (fun a b => a.1 < b.1) := by
  simp only [yearly_counts, valueCounts]
  set ks : List Int := (df.map (·.date_year)).filterMap id with hks
  have hnodup0 : (ks.dedup.map (fun k => (k, ks.count k))).Pairwise
      (fun a b : Int × Nat => a.1 ≠ b.1) := by
    refine List.pairwise_map.mpr ?_
    exact ks.nodup_dedup
  have hsymm : ∀ {x y : Int × Nat}, x.1 ≠ y.1 → y.1 ≠ x.1 := fun h => h.symm
  have hnodup1 : (List.insertionSort (fun a b : Int × Nat => b.2 ≤ a.2)
      (ks.dedup.map (fun k => (k, ks.count k)))).Pairwise
      (fun a b : Int × Nat => a.1 ≠ b.1) :=
    ((List.perm_insertionSort _ _).pairwise_iff hsymm).mpr hnodup0
  have hnodup2 : (List.insertionSort (fun a b : Int × Nat => a.1 ≤ b.1)
      (List.insertionSort (fun a b : Int × Nat => b.2 ≤ a.2)
        (ks.dedup.map (fun k => (k, ks.count k))))).Pairwise
      (fun a b : Int × Nat => a.1 ≠ b.1) :=
    ((List.perm_insertionSort _ _).pairwise_iff hsymm).mpr hnodup1
  have hsorted : (List.insertionSort (fun a b : Int × Nat => a.1 ≤ b.1)
      (List.insertionSort (fun a b : Int × Nat => b.2 ≤ a.2)
        (ks.dedup.map (fun k => (k, ks.count k))))).Pairwise
      (fun a b : Int × Nat => a.1 ≤ b.1) :=
    List.sorted_insertionSort _ _
  have hlt := (hsorted.and hnodup2).imp
    (fun h => lt_of_le_of_ne h.1 h.2)
  exact List.Pairwise.sublist (List.filter_sublist _) hlt

/-- Restricting a dataset to present-year rows leaves the non-null
entries of the year column unchanged. -/
theorem filterMap_year_filter_hasYear (df : Dataset) :
    (df.filter hasYear).filterMap (fun r => r.date_year) =
      df.filterMap (fun r => r.date_year) := by
  induction df with
  | nil => rfl
  | cons r t ih =>
    cases hr : r.date_year with
    | none => simp [List.filter_cons, hasYear, hr, List.filterMap_cons, ih]
    | some n => simp [List.filter_cons, hasYear, hr, List.filterMap_cons, ih]

/-- Restricting to present-year rows does not change a fixed-year group. -/
theorem filter_eqYear_filter_hasYear (df : Dataset) (y : Int) :
    (df.filter hasYear).filter (fun r => decide (r.date_year = some y)) =
      df.filter (fun r => decide (r.date_year = some y)) := by
  rw [List.filter_filter]
  refine List.filter_congr ?_
  intro r _
  cases hr : r.date_year <;> simp [hasYear, hr]

/-- Restricting to present-year rows does not change a year-threshold
filter, because a null year already fails the threshold comparison. -/
theorem filter_yearGE_filter_hasYear (df : Dataset) (y : Int) :
    (df.filter hasYear).filter (yearGE y) = df.filter (yearGE y) := by
  rw [List.filter_filter]
  refine List.filter_congr ?_
  intro r _
  cases hr : r.date_year <;> simp [hasYear, yearGE, hr]

/-- C2: no derived view contains a record with a null year — stated as
invariance: deleting the null-year rows of the input changes none of the
four transforms' outputs, so null-year records are excluded from (never
contribute to) every derived view, whose year entries are in turn
non-null by construction. -/
theorem C2_derived_views_exclude_null_years (df : Dataset)
    (field : Observation → Option String) (y : Int) :
    yearly_counts (df.filter hasYear) = yearly_counts df ∧
    yearly_means (df.filter hasYear) = yearly_means df ∧
    category_counts (df.filter hasYear) field = category_counts df field ∧
    filter_turtle_data (df.filter hasYear) y = filter_turtle_data df y := by
  refine ⟨?_, ?_, ?_, ?_⟩
  · have hcol : ((df.filter hasYear).map (fun r => r.date_year)).filterMap id =
        (df.map (fun r => r.date_year)).filterMap id := by
      simp only [List.filterMap_map]
      simpa [Function.comp] using filterMap_year_filter_hasYear df
    simp only [yearly_counts, valueCounts, hcol]
  · simp only [yearly_means, filterMap_year_filter_hasYear,
      filter_eqYear_filter_hasYear]
  · simp only [category_counts, filter_yearGE_filter_hasYear]
  · simp only [filter_turtle_data, filter_yearGE_filter_hasYear]

/-- C9: raising the year threshold never increases the number of rows the
geo filter returns. -/
theorem C9_geo_filter_count_antitone (df : Dataset) (y1 y2 : Int) (h : y1 ≤ y2) :
    (filter_turtle_data df y2).length ≤ (filter_turtle_data df y1).length := by
  simp only [filter_turtle_data, List.length_map]
  rw [← List.countP_eq_length_filter, ← List.countP_eq_length_filter]
  refine List.countP_mono_left ?_
  intro r _ hr
  cases hy : r.date_year with
  | none => simp [yearGE, hy] at hr
  | some n =>
    simp only [yearGE, hy, decide_eq_true_eq] at hr ⊢
    exact le_trans h hr

/-- Witness for C9 at a concrete dataset and thresholds 1990 and 1995. -/
theorem C9_geo_filter_count_antitone_witness :
    (filter_turtle_data [obsY 2000] 1995).length ≤
      (filter_turtle_data [obsY 2000] 1990).length :=
  C9_geo_filter_count_antitone [obsY 2000] 1990 1995 (by decide)

/-- Counterexample to C1 as stated: on a dataset whose single record has
year 2000 and null coordinates, the geo filter still returns that record,
so its output is not restricted to records with both coordinates present. -/
theorem C1_counterexample_null_coords_kept :
    ([obsY 2000].all (fun r =>
        decide (r.decimalLatitude = none) && decide (r.decimalLongitude = none))) = true ∧
    filter_turtle_data [obsY 2000] 1990 = [⟨2000, none, none⟩] :=
  ⟨rfl, rfl⟩

/-- C1 (amended): the geo filter returns exactly the records whose year is
present and at least the threshold, projected to the three fields with the
year as a (non-null) integer; records with missing coordinates are kept.
Stated as an equality of multiplicities between the output and the
matching input rows. -/
theorem C1_amended_geo_filter_exact (df : Dataset) (y : Int) (g : GeoRow) :
    (filter_turtle_data df y).count g =
      df.countP (fun r => decide (r.date_year = some g.date_year) &&
        decide (y ≤ g.date_year) &&
        decide (r.decimalLatitude = g.decimalLatitude) &&
        decide (r.decimalLongitude = g.decimalLongitude)) := by
  obtain ⟨gy, glat, glon⟩ := g
  simp only [filter_turtle_data]
  rw [List.count_eq_countP, List.countP_map, List.countP_filter]
  refine List.countP_congr ?_
  intro r _
  cases hy : r.date_year with
  | none => simp [yearGE, hy]
  | some n =>
    simp only [Function.comp, yearGE, hy, Option.getD, Bool.and_eq_true,
      decide_eq_true_eq, beq_iff_eq, GeoRow.mk.injEq, Option.some.injEq]
    constructor
    · rintro ⟨⟨h1, h2, h3⟩, h4⟩
      subst h1
      exact ⟨⟨⟨rfl, h4⟩, h2⟩, h3⟩
    · rintro ⟨⟨⟨h1, h4⟩, h2⟩, h3⟩
      subst h1
      exact ⟨⟨rfl, h2, h3⟩, h4⟩

/-- Counterexample to C3 as stated: on a dataset whose single record has
year 2000 and a null `sst`, the year-2000 group has every `sst` value
null, yet year 2000 still appears in the yearly-means output instead of
being omitted. -/
theorem C3_counterexample_all_null_year_present :
    ([obsY 2000].all (fun r => decide (r.sst = none))) = true ∧
    (yearly_means [obsY 2000]).map (fun e => e.1) = [2000] :=
  ⟨rfl, rfl⟩

/-- Group mean of any numeric column selector over a fixed-year group is
the undefined marker when every value of that column in the group is
null. -/
theorem colMean_eq_none_of_all_null (df : Dataset) (y : Int)
    (f : Observation → Option ℚ)
    (hnull : ∀ r ∈ df, r.date_year = some y → f r = none) :
    colMean ((df.filter (fun r => decide (r.date_year = some y))).map f) = none := by
  have hnil : ((df.filter (fun r => decide (r.date_year = some y))).map
      f).filterMap id = [] := by
    rw [List.filterMap_map]
    refine List.filterMap_eq_nil_iff.mpr ?_
    intro r hr
    have h1 := List.mem_filter.mp hr
    have h2 : r.date_year = some y := by simpa using h1.2
    simpa [Function.comp] using hnull r h1.1 h2
  simp [colMean, hnil]

/-- C3 (amended): a year that occurs in the dataset is kept in the
yearly-means output, and for each of the aggregated numeric columns
(`sst` and `sss`, the columns line 119 computes), if every value of that
column in the year's group is null, the year's entry carries the
undefined mean marker `none` (pandas `NaN`) for that column —
distinguishable from any numeric mean — rather than the year being
omitted. -/
theorem C3_amended_all_null_year_kept (df : Dataset) (y : Int)
    (hy : ∃ r ∈ df, r.date_year = some y) :
    ∃ e ∈ yearly_means df, e.1 = y ∧
      ((∀ r ∈ df, r.date_year = some y → r.sst = none) → e.2.1 = none) ∧
      ((∀ r ∈ df, r.date_year = some y → r.sss = none) → e.2.2 = none) := by
  obtain ⟨r0, hr0, hr0y⟩ := hy
  have hmem : y ∈ (df.filterMap (fun r => r.date_year)).dedup := by
    rw [List.mem_dedup, List.mem_filterMap]
    exact ⟨r0, hr0, hr0y⟩
  have hmem2 : y ∈ List.insertionSort (fun a b => a ≤ b)
      (df.filterMap (fun r => r.date_year)).dedup :=
    (List.mem_insertionSort _).mpr hmem
  refine ⟨_, List.mem_map_of_mem _ hmem2, rfl, ?_, ?_⟩
  · intro hnull
    exact colMean_eq_none_of_all_null df y (fun r => r.sst) hnull
  · intro hnull
    exact colMean_eq_none_of_all_null df y (fun r => r.sss) hnull

/-- Witness for the amended C3 at a concrete one-record dataset whose
single year-2000 record has null `sst` and null `sss`. -/
theorem C3_amended_all_null_year_kept_witness :
    ∃ e ∈ yearly_means [obsY 2000], e.1 = 2000 ∧
      ((∀ r ∈ [obsY 2000], r.date_year = some 2000 → r.sst = none) → e.2.1 = none) ∧
      ((∀ r ∈ [obsY 2000], r.date_year = some 2000 → r.sss = none) → e.2.2 = none) :=
  C3_amended_all_null_year_kept [obsY 2000] 2000 (by decide)

/-- C7: every pair in the category-count output has count strictly
greater than one, and its count is exactly the number of input records
whose year is at least 2000 and whose field value is that category — so
no record with year below 2000 (or a null year) is ever counted. -/
theorem C7_category_counts_exact (df : Dataset) (field : Observation → Option String)
    (p : String × Nat) (hp : p ∈ category_counts df field) :
    1 < p.2 ∧ p.2 = df.countP (fun r => yearGE 2000 r && (field r == some p.1)) := by
  simp only [category_counts, valueCounts] at hp
  have h1 := List.mem_filter.mp hp
  have hgt : 1 < p.2 := by simpa using h1.2
  refine ⟨hgt, ?_⟩
  have h2 := (List.mem_insertionSort _).mp h1.1
  obtain ⟨k, hk, hkp⟩ := List.mem_map.mp h2
  subst hkp
  show (((df.filter (yearGE 2000)).map field).filterMap id).count k =
    df.countP (fun r => yearGE 2000 r && (field r == some k))
  rw [List.count_filterMap, List.countP_map, List.countP_filter]
  refine List.countP_congr ?_
  intro x _
  simp [Function.comp, Bool.and_comm]

/-- Witness for C7 at a concrete dataset of two identical Pacific records. -/
theorem C7_category_counts_exact_witness :
    1 < (("Pacific", 2) : String × Nat).2 ∧
    (("Pacific", 2) : String × Nat).2 =
      [obsC 2000 "Pacific", obsC 2000 "Pacific"].countP
        (fun r => yearGE 2000 r &&
          (r.waterBody == some ((("Pacific", 2) : String × Nat)).1)) :=
  C7_category_counts_exact [obsC 2000 "Pacific", obsC 2000 "Pacific"]
    (fun r => r.waterBody) ("Pacific", 2) (by decide)

/-- Counterexample to C10 as stated: a dataset holding two year-2000
null-category records — satisfying the claim's premise — plus one
null-year record.  The load-time fill writes the string "NA" into the
null year, so the year comparison in the category-count path raises
TypeError and no categories are reported at all, instead of the records
being counted under "NA". -/
theorem C10_counterexample_null_year_raises :
    2 ≤ [obsNull, obsY 2000, obsY 2000].countP
        (fun r => yearGE 2000 r && r.waterBody.isNone) ∧
    pie_plot (fillNA [obsNull, obsY 2000, obsY 2000]) (fun r => r.waterBody) =
      Except.error "TypeError" :=
  ⟨by decide, rfl⟩

/-- C10 (amended): on a dataset whose years are all present — the shape
`load_data` intends to establish before filling — records with year at
least 2000 and a null category value are reported by the pie-plot path
under the load-time marker "NA": with at least two such records the path
succeeds and its output contains an "NA" category counting at least those
records, rather than dropping them.  (With a null year present, the
filled year column instead makes the year comparison raise TypeError.) -/
theorem C10_null_categories_counted_as_NA (df : Dataset)
    (hclean : df.all hasYear = true)
    (h : 2 ≤ df.countP (fun r => yearGE 2000 r && r.waterBody.isNone)) :
    ∃ cs, pie_plot (fillNA df) (fun r => r.waterBody) = Except.ok cs ∧
      ∃ p ∈ cs, p.1 = "NA" ∧ 2 ≤ p.2 := by
  have hnoerr : (fillNA df).any (fun r => r.date_year.isRight) = false := by
    rw [List.any_eq_false]
    intro x hx
    obtain ⟨r, hr, rfl⟩ := List.mem_map.mp (by simpa [fillNA] using hx)
    have hy := (List.all_eq_true.mp hclean) r hr
    cases hyr : r.date_year with
    | none => rw [hasYear, hyr] at hy; simp at hy
    | some n => simp [fillCell, hyr]
  have hok : pie_plot (fillNA df) (fun r => r.waterBody) =
      Except.ok ((valueCounts (((fillNA df).filter (filledYearGE 2000)).map
        (fun r => some r.waterBody))).filter (fun p => decide (1 < p.2))) := by
    simp only [pie_plot, hnoerr]
    rfl
  have hcnt : 2 ≤ ((((fillNA df).filter (filledYearGE 2000)).map
      (fun r => some r.waterBody)).filterMap id).count "NA" := by
    rw [List.count_filterMap, List.countP_map, List.countP_filter, fillNA,
      List.countP_map]
    refine le_trans h (List.countP_mono_left ?_)
    intro r _ hr
    rw [Bool.and_eq_true] at hr
    obtain ⟨h2000, hnone⟩ := hr
    cases hwb : r.waterBody with
    | some s => rw [hwb] at hnone; simp at hnone
    | none =>
      cases hyr : r.date_year with
      | none => simp [yearGE, hyr] at h2000
      | some n =>
        have hn : (2000 : Int) ≤ n := by simpa [yearGE, hyr] using h2000
        simp [Function.comp, filledYearGE, fillCell, hwb, hyr, hn]
  have hmemks : "NA" ∈ (((fillNA df).filter (filledYearGE 2000)).map
      (fun r => some r.waterBody)).filterMap id := by
    by_contra hno
    rw [List.count_eq_zero_of_not_mem hno] at hcnt
    omega
  refine ⟨_, hok, ("NA", ((((fillNA df).filter (filledYearGE 2000)).map
      (fun r => some r.waterBody)).filterMap id).count "NA"), ?_, rfl, hcnt⟩
  simp only [valueCounts]
  refine List.mem_filter.mpr ⟨?_, by simp only [decide_eq_true_eq]; omega⟩
  refine (List.mem_insertionSort _).mpr ?_
  exact List.mem_map_of_mem _ (List.mem_dedup.mpr hmemks)

/-- Witness for the amended C10 at a concrete dataset of two year-2000
records with null water body (and no null years). -/
theorem C10_null_categories_counted_as_NA_witness :
    ∃ cs, pie_plot (fillNA [obsY 2000, obsY 2000]) (fun r => r.waterBody) =
        Except.ok cs ∧ ∃ p ∈ cs, p.1 = "NA" ∧ 2 ≤ p.2 :=
  C10_null_categories_counted_as_NA [obsY 2000, obsY 2000] (by decide) (by decide)
